import Mathlib

/-!
Shallow embedding of `src/official/mnist/mnist.py`, a TensorFlow MNIST
training/evaluation driver, together with proofs of the specification
claims about it.

Conventions of the embedding:
* Python strings stay `String`; the `data_format` argument, padding modes
  and device names are the literal strings of the source.
* Keras layer constructors become constructors of an inductive `Layer`
  type recording exactly the configuration the source passes; a
  `tf.keras.Sequential` model is its `List Layer`.
* A fallible Python function becomes `Except PyErr _`; `assert` failure is
  `PyErr.assertionError`, a `raise RuntimeError(msg)` at a given source
  site is `PyErr.runtimeError site msg`, and an unbound global name looked
  up at call time is `PyErr.nameError name`.
* `main` is embedded as a trace semantics: the ordered list of framework
  calls it performs, paired with its outcome.
-/

namespace Mnist

/-- Modelled from the spec: `mnist_dataset.IMAGE_SIZE`, imported by
`mnist.py` from `official.datasets.image.mnist_dataset`, is repository code
that is not under `src/`.  The spec (section 3) describes the domain data
as raw 28×28 single-channel pixel grids, and the docstring of
`create_model` says MNIST images are 28x28 pixels, so the constant is 28. -/
def IMAGE_SIZE : Nat := 28

/-- Activation functions referenced by the source (`tf.nn.relu`,
`tf.nn.softmax`). -/
inductive Activation where
  | relu
  | softmax
  deriving DecidableEq, Repr

/-- One Keras layer as configured by `create_model`, recording exactly the
arguments the source passes to the corresponding `tf.keras.layers`
constructor. -/
inductive Layer where
  | Reshape (target_shape : List Nat)
  | Conv2D (filters : Nat) (kernel_size : Nat) (padding : String)
      (data_format : String) (activation : Option Activation)
  | MaxPooling2D (pool_size : Nat × Nat) (strides : Nat × Nat)
      (padding : String) (data_format : String)
  | Flatten
  | Dense (units : Nat) (activation : Option Activation)
  | Dropout (rate : ℚ)
  deriving DecidableEq, Repr

/-- Python exceptions raised by the embedded code paths. -/
inductive PyErr where
  | runtimeError (site : Nat) (msg : String)
  | assertionError
  | nameError (name : String)
  deriving DecidableEq, Repr

/-- Embedding of `create_model` (mnist.py lines 35-88).  The `if/else`
with the `assert` on `data_format` becomes the guarded computation of
`input_shape`; the returned `tf.keras.Sequential` becomes the ordered list
of its layers.  `image_size` defaults to `IMAGE_SIZE` at the call sites,
matching the Python default argument. -/
def create_model (data_format : String) (image_size : Nat) :
    Except PyErr (List Layer) :=
  if data_format = "channels_first" then
    createLayers data_format [1, image_size, image_size]
  else if data_format = "channels_last" then
    createLayers data_format [image_size, image_size, 1]
  else
    Except.error PyErr.assertionError
where
  /-- The layer list built after the `input_shape` guard: the body of the
  `tf.keras.Sequential([...])` call, with `max_pool` the shared
  `MaxPooling2D((2, 2), (2, 2), padding='same', data_format=data_format)`
  object used for both pooling stages. -/
  createLayers (data_format : String) (input_shape : List Nat) :
      Except PyErr (List Layer) :=
    let max_pool := Layer.MaxPooling2D (2, 2) (2, 2) "same" data_format
    Except.ok
      [ Layer.Reshape input_shape,
        Layer.Conv2D 32 5 "same" data_format (some Activation.relu),
        max_pool,
        Layer.Conv2D 64 5 "same" data_format (some Activation.relu),
        max_pool,
        Layer.Flatten,
        Layer.Dense 1024 (some Activation.relu),
        Layer.Dropout (0.4 : ℚ),
        Layer.Dense 10 none ]

/-- The three members of `tf.estimator.ModeKeys` used by `model_fn`. -/
inductive ModeKeys where
  | PREDICT
  | TRAIN
  | EVAL
  deriving DecidableEq, Repr

/-- The `params` dict passed to `model_fn` by `construct_estimator`:
exactly the keys `use_tpu` and `data_format`. -/
structure Params where
  use_tpu : Bool
  data_format : String
  deriving DecidableEq, Repr

/-- The kind of estimator spec `model_fn` returns on success:
`tf.estimator.EstimatorSpec` or `tf.contrib.tpu.TPUEstimatorSpec`,
tagged with the mode it was built for. -/
inductive SpecResult where
  | estimatorSpec (mode : ModeKeys)
  | tpuEstimatorSpec (mode : ModeKeys)
  deriving DecidableEq, Repr

/-- The message of both `RuntimeError` raise statements in `model_fn`. -/
def tpuPredictMsg : String := "mode PREDICT is not yet supported for TPUs."

/-- The two `raise RuntimeError` sites in `model_fn`, by transcription:
site 1 is the guard at function entry (line 103-104), site 2 is the guard
inside the PREDICT branch (line 112-113).  Both carry the same message. -/
def model_fn_guard_sites : List (Nat × String) :=
  [(1, tpuPredictMsg), (2, tpuPredictMsg)]

/-- Embedding of `model_fn` (mnist.py lines 100-162).  The
`isinstance(image, dict)` unwrapping and the tensors flowing through the
model are data-plane details irrelevant to the control flow and are not
tracked; what is kept is the guard structure, the `create_model` call (with
its possible assertion failure) and which estimator spec each branch
returns.  A fall-through for a mode outside ModeKeys cannot occur since
`mode` ranges over the three ModeKeys members. -/
def model_fn (mode : ModeKeys) (params : Params) : Except PyErr SpecResult :=
  let use_tpu := params.use_tpu
  if use_tpu && (mode == ModeKeys.PREDICT) then
    Except.error (PyErr.runtimeError 1 tpuPredictMsg)
  else
    match create_model params.data_format IMAGE_SIZE with
    | Except.error e => Except.error e
    | Except.ok _model =>
      match mode with
      | ModeKeys.PREDICT =>
        if use_tpu then
          Except.error (PyErr.runtimeError 2 tpuPredictMsg)
        else
          Except.ok (SpecResult.estimatorSpec ModeKeys.PREDICT)
      | ModeKeys.TRAIN =>
        if use_tpu then
          Except.ok (SpecResult.tpuEstimatorSpec ModeKeys.TRAIN)
        else
          Except.ok (SpecResult.estimatorSpec ModeKeys.TRAIN)
      | ModeKeys.EVAL =>
        if use_tpu then
          Except.ok (SpecResult.tpuEstimatorSpec ModeKeys.EVAL)
        else
          Except.ok (SpecResult.estimatorSpec ModeKeys.EVAL)

/-- The flags record produced by `parser.parse_args`: the fields of it
that `construct_estimator` and `main` read.  `num_gpus`, `train_epochs`
and `epochs_between_evals` are Python ints, so they are `Int` here. -/
structure Flags where
  num_gpus : Int
  data_format : Option String
  model_dir : String
  batch_size : Nat
  tpu : Option String
  tpu_zone : Option String
  tpu_gcp_project : Option String
  iterations_per_loop : Nat
  num_tpu_shards : Nat
  inter_op_parallelism_threads : Nat
  intra_op_parallelism_threads : Nat
  train_epochs : Int
  epochs_between_evals : Int
  export_dir : Option String
  deriving DecidableEq, Repr

/-- The arguments `construct_estimator` passes to
`tf.contrib.cluster_resolver.TPUClusterResolver`. -/
structure TPUClusterResolver where
  tpu : Option String
  zone : Option String
  project : Option String
  deriving DecidableEq, Repr

/-- The distribution strategies `construct_estimator` chooses between. -/
inductive Distribution where
  | OneDeviceStrategy (device : String)
  | MirroredStrategy (num_gpus : Int)
  deriving DecidableEq, Repr

/-- The `tf.ConfigProto` built by `construct_estimator`. -/
structure SessionConfig where
  inter_op_parallelism_threads : Nat
  intra_op_parallelism_threads : Nat
  allow_soft_placement : Bool
  log_device_placement : Bool
  deriving DecidableEq, Repr

/-- The `tf.contrib.tpu.TPUConfig` inside the TPU run config. -/
structure TPUConfig where
  iterations_per_loop : Nat
  num_shards : Nat
  deriving DecidableEq, Repr

/-- The `tf.contrib.tpu.RunConfig` of the TPU branch. -/
structure TpuRunConfig where
  cluster : TPUClusterResolver
  model_dir : String
  session_config : SessionConfig
  tpu_config : TPUConfig
  deriving DecidableEq, Repr

/-- The `tf.estimator.RunConfig` of the non-TPU branch. -/
structure StdRunConfig where
  model_dir : String
  train_distribute : Distribution
  session_config : SessionConfig
  deriving DecidableEq, Repr

set_option linter.dupNamespace false

/-- The value returned by `construct_estimator`: either a
`tf.contrib.tpu.TPUEstimator` or a plain `tf.estimator.Estimator`, with
the configuration the source passes to it. -/
inductive Estimator where
  | TPUEstimator (use_tpu : Bool) (train_batch_size : Nat)
      (eval_batch_size : Nat) (params : Params) (config : TpuRunConfig)
  | Estimator (config : StdRunConfig) (params : Params)
  deriving DecidableEq, Repr

/-- Embedding of `construct_estimator` (mnist.py lines 165-219). -/
def construct_estimator (flags : Flags) (use_tpu : Bool) : Estimator :=
  let use_gpu : Bool := decide (flags.num_gpus > 0)
  let data_format : String :=
    match flags.data_format with
    | some df => df
    | none => if use_gpu || use_tpu then "channels_first" else "channels_last"
  let params : Params := ⟨use_tpu, data_format⟩
  let session_config : SessionConfig :=
    ⟨flags.inter_op_parallelism_threads, flags.intra_op_parallelism_threads,
      true, true⟩
  if use_tpu then
    let tpu_cluster_resolver : TPUClusterResolver :=
      ⟨flags.tpu, flags.tpu_zone, flags.tpu_gcp_project⟩
    let run_config : TpuRunConfig :=
      ⟨tpu_cluster_resolver, flags.model_dir, session_config,
        ⟨flags.iterations_per_loop, flags.num_tpu_shards⟩⟩
    Estimator.TPUEstimator true flags.batch_size flags.batch_size params
      run_config
  else
    let distribution : Distribution :=
      if flags.num_gpus = 0 then Distribution.OneDeviceStrategy "device:CPU:0"
      else if flags.num_gpus = 1 then
        Distribution.OneDeviceStrategy "device:GPU:0"
      else Distribution.MirroredStrategy flags.num_gpus
    Estimator.Estimator ⟨flags.model_dir, distribution, session_config⟩ params

/-- Whether an estimator is the TPU variant. -/
def estimatorIsTPU : Estimator → Bool
  | Estimator.TPUEstimator _ _ _ _ _ => true
  | Estimator.Estimator _ _ => false

/-- The TPU cluster resolver an estimator was configured with, when it is
the TPU variant. -/
def estimatorCluster : Estimator → Option TPUClusterResolver
  | Estimator.TPUEstimator _ _ _ _ cfg => some cfg.cluster
  | Estimator.Estimator _ _ => none

/-- The training distribution strategy of a standard estimator. -/
def estimatorTrainDistribute : Estimator → Option Distribution
  | Estimator.TPUEstimator _ _ _ _ _ => none
  | Estimator.Estimator cfg _ => some cfg.train_distribute

/-- The `params` dict an estimator will hand to `model_fn`. -/
def estimatorModelParams : Estimator → Params
  | Estimator.TPUEstimator _ _ _ p _ => p
  | Estimator.Estimator _ p => p

/-- The framework calls `main` performs, in the order it performs them. -/
inductive Event where
  | parseArgs
  | constructEstimator
  | getTrainHooks
  | train
  | evaluate
  | exportModel
  deriving DecidableEq, Repr

/-- The names bound at module level of `mnist.py`: the nine names bound by
its import statements and the seven top-level definitions.  Transcribed
from the source; note that no name `train_input_fn` or `eval_input_fn` is
bound anywhere in the module. -/
def module_global_names : List String :=
  [ "argparse", "sys", "tf", "mnist_dataset", "accelerator", "base",
    "parsers", "hooks_helper", "model_helpers",
    "LEARNING_RATE", "create_model", "metric_fn", "model_fn",
    "construct_estimator", "main", "MNISTArgParser" ]

/-- Python global-name lookup as it happens inside `main` for a name that
is not a local variable of `main`: it succeeds when the module binds the
name and raises `NameError` otherwise. -/
def resolveGlobal (n : String) : Except PyErr Unit :=
  if n ∈ module_global_names then Except.ok ()
  else Except.error (PyErr.nameError n)

/-- One pass of the `for _ in range(...)` loop of `main` (lines 233-240),
iterated `fuel` times starting at iteration index `i`.  Each iteration
evaluates the arguments of `mnist_classifier.train` (looking up the global
`train_input_fn`), performs the train call, then evaluates the arguments
of `mnist_classifier.evaluate` (looking up the global `eval_input_fn`),
performs the evaluate call, and breaks early when
`model_helpers.past_stop_threshold(flags.stop_threshold, accuracy)` is
true; `past_stop i` abstracts that framework predicate at iteration `i`.
Returns the events performed and the outcome. -/
def train_eval_loop (past_stop : Nat → Bool) :
    Nat → Nat → List Event × Except PyErr Unit
  | _, 0 => ([], Except.ok ())
  | i, fuel + 1 =>
    match resolveGlobal "train_input_fn" with
    | Except.error e => ([], Except.error e)
    | Except.ok _ =>
      match resolveGlobal "eval_input_fn" with
      | Except.error e => ([Event.train], Except.error e)
      | Except.ok _ =>
        if past_stop i then ([Event.train, Event.evaluate], Except.ok ())
        else
          let rest := train_eval_loop past_stop (i + 1) fuel
          (Event.train :: Event.evaluate :: rest.1, rest.2)

/-- The number of loop iterations `main` requests:
`range(flags.train_epochs // flags.epochs_between_evals)`.  Python `//` on
ints is floor division, which is `Int.ediv` for a positive divisor, and
`range` of a non-positive bound is empty, hence `Int.toNat`. -/
def main_loop_count (flags : Flags) : Nat :=
  (Int.ediv flags.train_epochs flags.epochs_between_evals).toNat

/-- The shape of the serving-export input placeholder declared in `main`
(line 244): `tf.placeholder(tf.float32, [None, 28, 28])`, with `None` the
unconstrained batch dimension. -/
def serving_input_shape : List (Option Nat) := [none, some 28, some 28]

/-- Trace semantics of `main` (mnist.py lines 221-248) after the
command-line flags have been parsed into `flags`: the ordered list of
framework calls it performs and its outcome.  `main` parses the arguments,
constructs the estimator, sets up the training hooks, runs the
train/evaluate loop, and finally exports the model when
`flags.export_dir is not None`.  `past_stop` abstracts, per iteration, the
framework's stop-threshold test on the evaluation accuracy. -/
def main_trace (flags : Flags) (past_stop : Nat → Bool) :
    List Event × Except PyErr Unit :=
  let pre := [Event.parseArgs, Event.constructEstimator, Event.getTrainHooks]
  let lp := train_eval_loop past_stop 0 (main_loop_count flags)
  match lp.2 with
  | Except.error e => (pre ++ lp.1, Except.error e)
  | Except.ok _ =>
    if flags.export_dir.isSome then
      (pre ++ lp.1 ++ [Event.exportModel], Except.ok ())
    else
      (pre ++ lp.1, Except.ok ())

/-- The parent parsers `MNISTArgParser.__init__` composes, with the
constructor arguments the source passes:
`parsers.BaseParser(multi_gpu=False, num_gpu=False)`,
`accelerator.Parser(simple_help=simple_help, num_gpus=True, tpu=True)`,
`parsers.ImageModelParser()` and `parsers.ExportParser()`. -/
inductive ParentParser where
  | BaseParser (multi_gpu : Bool) (num_gpu : Bool)
  | AcceleratorParser (simple_help : Bool) (num_gpus : Bool) (tpu : Bool)
  | ImageModelParser
  | ExportParser
  deriving DecidableEq, Repr

/-- The defaults `MNISTArgParser.__init__` installs with `set_defaults`. -/
structure ArgDefaults where
  data_dir : String
  model_dir : String
  batch_size : Nat
  train_epochs : Nat
  deriving DecidableEq, Repr

/-- The configuration an `MNISTArgParser` instance carries: its ordered
parent-parser list and its installed defaults. -/
structure ParserConfig where
  parents : List ParentParser
  simple_help : Bool
  defaults : ArgDefaults
  deriving DecidableEq, Repr

/-- Embedding of `MNISTArgParser.__init__` (mnist.py lines 251-267). -/
def MNISTArgParser (simple_help : Bool) : ParserConfig :=
  ⟨[ ParentParser.BaseParser false false,
     ParentParser.AcceleratorParser simple_help true true,
     ParentParser.ImageModelParser,
     ParentParser.ExportParser ],
   simple_help,
   ⟨"/tmp/mnist_data", "/tmp/mnist_model", 100, 40⟩⟩

/-- The categories of command-line flags the spec names as the program's
command-line surface. -/
inductive FlagGroup where
  | dataDirectory
  | modelDirectory
  | batchSize
  | epochCounts
  | acceleratorSelection
  | exportDirectory
  deriving DecidableEq, Repr

/-- Modelled from the spec: the parser modules
`official.utils.arg_parsers.base`, `official.utils.arg_parsers.parsers`
and `official.utils.arg_parsers.accelerator` are repository code that is
not under `src/`, so which flags each parent parser defines is taken from
the spec, which describes the command-line surface as the data/model
directories, batch size, epoch counts, accelerator selection (number of
GPUs and TPU settings), and export directory.  The base parser carries the
directory, batch-size and epoch flags, the accelerator parser the
num-GPU/TPU flags, and the export parser the export directory; the
image-model parser adds nothing the spec lists. -/
def parentSurface : ParentParser → List FlagGroup
  | ParentParser.BaseParser _ _ =>
    [ FlagGroup.dataDirectory, FlagGroup.modelDirectory,
      FlagGroup.batchSize, FlagGroup.epochCounts ]
  | ParentParser.AcceleratorParser _ _ _ => [FlagGroup.acceleratorSelection]
  | ParentParser.ImageModelParser => []
  | ParentParser.ExportParser => [FlagGroup.exportDirectory]

/-- The command-line surface of a composed parser: the flag groups
contributed by its parent parsers, in order. -/
def commandLineSurface (p : ParserConfig) : List FlagGroup :=
  (p.parents.map parentSurface).flatten

/-- The layer list of a successful `create_model` outcome (empty on
failure). -/
def okLayers : Except PyErr (List Layer) → List Layer
  | Except.ok layers => layers
  | Except.error _ => []

/-- The guard site recorded in a `model_fn` outcome: `some s` when the
outcome is the `RuntimeError` raised at guard site `s`, `none` otherwise. -/
def raisedGuardSite : Except PyErr SpecResult → Option Nat
  | Except.error (PyErr.runtimeError s _) => some s
  | _ => none

/-- A concrete flags record matching the defaults `MNISTArgParser`
installs (`model_dir`, `batch_size=100`, `train_epochs=40`), with no TPU,
no GPU, no explicit data format and no export directory, and one epoch
between evaluations. -/
def mnist_default_flags : Flags :=
  ⟨0, none, "/tmp/mnist_model", 100, none, none, none, 0, 0, 0, 0, 40, 1,
    none⟩

/-- `create_model` either fails its data-format assertion or returns a
layer list: the only two outcomes of the source function. -/
theorem create_model_result (df : String) (image_size : Nat) :
    create_model df image_size = Except.error PyErr.assertionError ∨
    ∃ layers, create_model df image_size = Except.ok layers := by
  unfold create_model
  split
  · exact Or.inr ⟨_, rfl⟩
  · split
    · exact Or.inr ⟨_, rfl⟩
    · exact Or.inl rfl

/-- C1: `model_fn` raises the RuntimeError with message "mode PREDICT is
not yet supported for TPUs." exactly when `params["use_tpu"]` is true and
the mode is PREDICT; for every other combination of mode and `use_tpu` no
guard raises, and the function has exactly two such guard sites, both with
that message. -/
theorem model_fn_tpu_predict_guard (mode : ModeKeys) (params : Params) :
    ((∃ s, model_fn mode params =
        Except.error (PyErr.runtimeError s tpuPredictMsg)) ↔
      (params.use_tpu = true ∧ mode = ModeKeys.PREDICT)) ∧
    model_fn_guard_sites.length = 2 ∧
    ∀ g ∈ model_fn_guard_sites, g.2 = tpuPredictMsg := by
  refine ⟨?_, rfl, by decide⟩
  rcases create_model_result params.data_format IMAGE_SIZE with h | ⟨layers, h⟩ <;>
    cases mode <;> cases hu : params.use_tpu <;>
      simp [model_fn, hu, h]

/-- C1 witness: with `use_tpu = true` and mode PREDICT, `model_fn` raises
the TPU-predict RuntimeError. -/
theorem model_fn_tpu_predict_guard_witness :
    ∃ s, model_fn ModeKeys.PREDICT ⟨true, "channels_last"⟩ =
      Except.error (PyErr.runtimeError s tpuPredictMsg) :=
  (model_fn_tpu_predict_guard ModeKeys.PREDICT ⟨true, "channels_last"⟩).1.mpr
    ⟨rfl, rfl⟩

/-- C2: for both documented data formats, `create_model` returns the
sequential layer list: a reshape to the input shape, a 32-filter 5x5
same-padded ReLU convolution, a 2x2 max-pooling, a 64-filter 5x5
same-padded ReLU convolution, a 2x2 max-pooling, a flatten, a 1024-unit
ReLU dense layer, a dropout with rate 0.4, and a final 10-unit dense layer
with no activation. -/
theorem create_model_topology (image_size : Nat) :
    create_model "channels_first" image_size = Except.ok
      [ Layer.Reshape [1, image_size, image_size],
        Layer.Conv2D 32 5 "same" "channels_first" (some Activation.relu),
        Layer.MaxPooling2D (2, 2) (2, 2) "same" "channels_first",
        Layer.Conv2D 64 5 "same" "channels_first" (some Activation.relu),
        Layer.MaxPooling2D (2, 2) (2, 2) "same" "channels_first",
        Layer.Flatten,
        Layer.Dense 1024 (some Activation.relu),
        Layer.Dropout (0.4 : ℚ),
        Layer.Dense 10 none ] ∧
    create_model "channels_last" image_size = Except.ok
      [ Layer.Reshape [image_size, image_size, 1],
        Layer.Conv2D 32 5 "same" "channels_last" (some Activation.relu),
        Layer.MaxPooling2D (2, 2) (2, 2) "same" "channels_last",
        Layer.Conv2D 64 5 "same" "channels_last" (some Activation.relu),
        Layer.MaxPooling2D (2, 2) (2, 2) "same" "channels_last",
        Layer.Flatten,
        Layer.Dense 1024 (some Activation.relu),
        Layer.Dropout (0.4 : ℚ),
        Layer.Dense 10 none ] := by
  constructor <;> rfl

/-- C3: `construct_estimator` selects the accelerator configuration from
the flags alone: with `use_tpu` it returns the TPU estimator configured
with a TPU cluster resolver built from the TPU flags; otherwise a standard
estimator whose training distribution is a one-device strategy on
device:CPU:0 when `num_gpus == 0`, a one-device strategy on device:GPU:0
when `num_gpus == 1`, and a mirrored strategy over `num_gpus` GPUs when
`num_gpus > 1`. -/
theorem construct_estimator_accelerator_selection (flags : Flags) :
    (estimatorIsTPU (construct_estimator flags true) = true ∧
      estimatorCluster (construct_estimator flags true) =
        some ⟨flags.tpu, flags.tpu_zone, flags.tpu_gcp_project⟩) ∧
    (estimatorIsTPU (construct_estimator flags false) = false ∧
      (flags.num_gpus = 0 →
        estimatorTrainDistribute (construct_estimator flags false) =
          some (Distribution.OneDeviceStrategy "device:CPU:0")) ∧
      (flags.num_gpus = 1 →
        estimatorTrainDistribute (construct_estimator flags false) =
          some (Distribution.OneDeviceStrategy "device:GPU:0")) ∧
      (flags.num_gpus > 1 →
        estimatorTrainDistribute (construct_estimator flags false) =
          some (Distribution.MirroredStrategy flags.num_gpus))) := by
  refine ⟨⟨rfl, rfl⟩, rfl, ?_, ?_, ?_⟩ <;> intro h
  · simp [construct_estimator, estimatorTrainDistribute, h]
  · simp [construct_estimator, estimatorTrainDistribute, h]
  · have h0 : ¬flags.num_gpus = 0 := by omega
    have h1 : ¬flags.num_gpus = 1 := by omega
    simp [construct_estimator, estimatorTrainDistribute, h0, h1]

/-- C3 witness: with zero GPUs and no TPU the chosen training distribution
is the one-device CPU strategy. -/
theorem construct_estimator_accelerator_selection_witness :
    estimatorTrainDistribute (construct_estimator mnist_default_flags false) =
      some (Distribution.OneDeviceStrategy "device:CPU:0") :=
  (construct_estimator_accelerator_selection mnist_default_flags).2.2.1 rfl

/-- C4 (evaluating the code at the failing input): with the parser
defaults (`train_epochs=40`, one epoch between evaluations), `main` parses
the flags, constructs the estimator and sets up the hooks, but the first
loop iteration fails with `NameError` while evaluating the argument
`train_input_fn` of the train call — the name is bound nowhere in the
module — so not a single train (or evaluate, or export) call is ever
performed. -/
theorem main_trace_name_error :
    main_trace mnist_default_flags (fun _ => false) =
      ([Event.parseArgs, Event.constructEstimator, Event.getTrainHooks],
        Except.error (PyErr.nameError "train_input_fn")) ∧
    ((main_trace mnist_default_flags (fun _ => false)).1.count Event.train
      = 0) := by
  constructor <;> rfl

/-- C5: the data model is a single-channel square image mapped to a 10-way
logit vector: for both valid data formats the input reshape has one
channel and side `IMAGE_SIZE`, whose default is 28, the final layer is a
10-unit dense layer with no activation, and the serving-export placeholder
in `main` has shape [None, 28, 28]. -/
theorem model_io_shape :
    (okLayers (create_model "channels_first" IMAGE_SIZE)).head? =
      some (Layer.Reshape [1, 28, 28]) ∧
    (okLayers (create_model "channels_last" IMAGE_SIZE)).head? =
      some (Layer.Reshape [28, 28, 1]) ∧
    (okLayers (create_model "channels_first" IMAGE_SIZE)).getLast? =
      some (Layer.Dense 10 none) ∧
    (okLayers (create_model "channels_last" IMAGE_SIZE)).getLast? =
      some (Layer.Dense 10 none) ∧
    IMAGE_SIZE = 28 ∧
    serving_input_shape = [none, some 28, some 28] := by
  refine ⟨rfl, rfl, rfl, rfl, rfl, rfl⟩

/-- C6: the second TPU-predict guard, inside the PREDICT branch, is
unreachable: every `model_fn` outcome either is the RuntimeError of guard
site 1 (the entry guard) or raises no guard at all; site 2 never fires. -/
theorem model_fn_second_guard_unreachable (mode : ModeKeys)
    (params : Params) :
    raisedGuardSite (model_fn mode params) = some 1 ∨
    raisedGuardSite (model_fn mode params) = none := by
  rcases create_model_result params.data_format IMAGE_SIZE with h | ⟨layers, h⟩ <;>
    cases mode <;> cases hu : params.use_tpu <;>
      simp [model_fn, raisedGuardSite, hu, h]

/-- C7: `create_model` is total exactly on the two documented data
formats: it returns a layer list iff the data format is channels_first or
channels_last, and fails its assertion (returning no layers at all) iff it
is neither. -/
theorem create_model_data_format_totality (df : String) (image_size : Nat) :
    ((∃ layers, create_model df image_size = Except.ok layers) ↔
      (df = "channels_first" ∨ df = "channels_last")) ∧
    (create_model df image_size = Except.error PyErr.assertionError ↔
      ¬(df = "channels_first" ∨ df = "channels_last")) := by
  unfold create_model
  by_cases h1 : df = "channels_first" <;> by_cases h2 : df = "channels_last" <;>
    simp [h1, h2, create_model.createLayers]

/-- C7 witness: channels_first is accepted. -/
theorem create_model_data_format_totality_witness :
    ∃ layers, create_model "channels_first" 28 = Except.ok layers :=
  (create_model_data_format_totality "channels_first" 28).1.mpr (Or.inl rfl)

/-- C8: when `flags.data_format` is None the data format handed to the
model is channels_first exactly when `flags.num_gpus > 0` or `use_tpu`,
and channels_last otherwise; a non-None `flags.data_format` is passed
through unchanged. -/
theorem construct_estimator_data_format (flags : Flags) (use_tpu : Bool) :
    (estimatorModelParams (construct_estimator flags use_tpu)).data_format =
      match flags.data_format with
      | some df => df
      | none =>
        if flags.num_gpus > 0 ∨ use_tpu = true then "channels_first"
        else "channels_last" := by
  rcases hdf : flags.data_format with _ | df <;>
    cases use_tpu <;>
      by_cases hg : flags.num_gpus > 0 <;>
        simp [construct_estimator, estimatorModelParams, hdf, hg]

/-- C9: `MNISTArgParser` composes the base, accelerator, image-model and
export parsers, installs the defaults data_dir=/tmp/mnist_data,
model_dir=/tmp/mnist_model, batch_size=100, train_epochs=40, and its
command-line surface is the data and model directories, batch size, epoch
counts, accelerator selection and export directory. -/
theorem mnist_arg_parser_surface (simple_help : Bool) :
    (MNISTArgParser simple_help).parents =
      [ ParentParser.BaseParser false false,
        ParentParser.AcceleratorParser simple_help true true,
        ParentParser.ImageModelParser,
        ParentParser.ExportParser ] ∧
    (MNISTArgParser simple_help).defaults =
      ⟨"/tmp/mnist_data", "/tmp/mnist_model", 100, 40⟩ ∧
    commandLineSurface (MNISTArgParser simple_help) =
      [ FlagGroup.dataDirectory, FlagGroup.modelDirectory,
        FlagGroup.batchSize, FlagGroup.epochCounts,
        FlagGroup.acceleratorSelection, FlagGroup.exportDirectory ] :=
  ⟨rfl, rfl, rfl⟩

end Mnist



